import Mathlib

/-!
Shallow embedding of the `opensearch-cedarling-plugin` demo servers
(`src/demo/tbac-live-test.py`, `src/demo/opensearch-cedarling-production.py`,
`src/demo/deploy-opensearch-with-cedarling.py`), together with theorems about
the token handling and authorization logic they implement.

Conventions of the embedding:
* Python strings are Lean `String`s (internally `List Char`).
* Values produced by `json.loads` are modelled by the inductive type `Json`;
  Python dicts built from JSON are association lists in insertion order
  (`json.loads` keeps the *last* occurrence of a duplicate key, which is what
  `dictGet` implements).
* Wall-clock reads (`time.time()`, measured durations) are threaded as explicit
  `Nat` parameters; `time.strftime` formatting is presentation-only and is
  represented by the raw epoch value.
* Code that can raise an uncaught Python exception is modelled in
  `Except String`, the error string naming the exception.
-/

namespace OCP

/-- JSON values as produced by Python `json.loads`.  Numbers are restricted to
integers: every numeric literal in the demo corpus (`exp`, `iat`, sizes, ...)
is an `int`, and the embedded JSON parser rejects floats rather than model
Python floating point. -/
inductive Json where
  | null : Json
  | bool : Bool → Json
  | num : Int → Json
  | str : String → Json
  | arr : List Json → Json
  | obj : List (String × Json) → Json
deriving Repr

mutual

/-- Python `==` on decoded JSON values.  Python `bool` is a subtype of `int`,
so `True == 1` and `False == 0` hold and are modelled here.  For lists and
dicts the comparison below is structural (element order matters for dicts,
whereas Python dict equality is key-order-insensitive); every comparison
performed by the embedded handlers is on scalar claim values, where the two
notions agree. -/
def Json.beq : Json → Json → Bool
  | .null, .null => true
  | .bool a, .bool b => a == b
  | .bool a, .num b => (if a then (1 : Int) else 0) == b
  | .num a, .bool b => a == (if b then (1 : Int) else 0)
  | .num a, .num b => a == b
  | .str a, .str b => a == b
  | .arr a, .arr b => Json.beqList a b
  | .obj a, .obj b => Json.beqKvs a b
  | _, _ => false

/-- Elementwise Python `==` on JSON arrays. -/
def Json.beqList : List Json → List Json → Bool
  | [], [] => true
  | a :: as, b :: bs => Json.beq a b && Json.beqList as bs
  | _, _ => false

/-- Pairwise Python `==` on JSON objects (see `Json.beq` for the caveat). -/
def Json.beqKvs : List (String × Json) → List (String × Json) → Bool
  | [], [] => true
  | (k, v) :: as, (l, w) :: bs => k == l && Json.beq v w && Json.beqKvs as bs
  | _, _ => false

end

/-- Python `d.get(key, default)` for a dict built by `json.loads` from an
association list in insertion order: successive assignments mean the *last*
binding of a key wins. -/
def dictGet (kvs : List (String × Json)) (key : String) (dflt : Json) : Json :=
  kvs.foldl (fun acc kv => if kv.1 == key then kv.2 else acc) dflt

/-- `Json.beq v (.str s)` holds exactly for the string value `s` itself:
no non-string JSON value is Python-`==` to a `str`. -/
theorem Json.beq_str_iff (v : Json) (s : String) :
    Json.beq v (.str s) = true ↔ v = .str s := by
  cases v <;> simp [Json.beq]

/-- Python `text.split(sep)` for a one-character separator: splits at every
occurrence, keeping empty pieces (`"".split('.') == ['']`). -/
def pySplitChar (sep : Char) : List Char → List (List Char)
  | [] => [[]]
  | c :: rest =>
    let r := pySplitChar sep rest
    if c = sep then [] :: r
    else
      match r with
      | [] => [[c]]
      | h :: t => (c :: h) :: t

/-- `pySplitChar` never returns an empty list of pieces. -/
theorem pySplitChar_ne_nil (sep : Char) (l : List Char) : pySplitChar sep l ≠ [] := by
  cases l with
  | nil => simp [pySplitChar]
  | cons c rest =>
    simp only [pySplitChar]
    split
    · simp
    · split <;> simp

/-- Splitting a separator-free text yields the single piece. -/
theorem pySplitChar_no_sep (sep : Char) (xs : List Char) (h : sep ∉ xs) :
    pySplitChar sep xs = [xs] := by
  induction xs with
  | nil => simp [pySplitChar]
  | cons c rest ih =>
    simp only [List.mem_cons, not_or] at h
    have hc : ¬ c = sep := fun hc => h.1 hc.symm
    simp [pySplitChar, ih h.2, if_neg hc]

/-- Splitting past a first separator peels off the separator-free prefix. -/
theorem pySplitChar_append_sep (sep : Char) (xs ys : List Char) (h : sep ∉ xs) :
    pySplitChar sep (xs ++ sep :: ys) = xs :: pySplitChar sep ys := by
  induction xs with
  | nil => simp [pySplitChar]
  | cons c rest ih =>
    simp only [List.mem_cons, not_or] at h
    have hc : ¬ c = sep := fun hc => h.1 hc.symm
    simp [List.cons_append, pySplitChar, ih h.2, if_neg hc]

/-- Python `pat in s` on strings: `pat` occurs contiguously in `s`
(the empty pattern always occurs). -/
def isSubstringAux (pat : List Char) : List Char → Bool
  | [] => pat.isPrefixOf []
  | c :: t => pat.isPrefixOf (c :: t) || isSubstringAux pat t

/-- Python `pat in s` on strings. -/
def isSubstring (pat s : String) : Bool := isSubstringAux pat.data s.data

/-- Python `s.startswith(pre)`. -/
def pyStartsWith (s pre : String) : Bool := pre.data.isPrefixOf s.data

/-- Python `x in y` for a string `x` and a decoded JSON value `y`: substring
test when `y` is a `str`, element membership (via Python `==`) when `y` is a
`list`, key membership when `y` is a `dict`, and `TypeError` when `y` is a
non-iterable scalar (`int`, `bool`, `None`). -/
def pyInStr (x : String) : Json → Except String Bool
  | .str s => .ok (isSubstring x s)
  | .arr xs => .ok (xs.any (fun e => Json.beq (.str x) e))
  | .obj kvs => .ok (kvs.any (fun kv => kv.1 == x))
  | _ => .error "TypeError: argument of type is not iterable"

/-- The base64url alphabet character for a 6-bit value
(`A–Z`, `a–z`, `0–9`, `-`, `_`). -/
def b64uChar (n : Nat) : Char :=
  if n < 26 then Char.ofNat (65 + n)
  else if n < 52 then Char.ofNat (97 + (n - 26))
  else if n < 62 then Char.ofNat (48 + (n - 52))
  else if n = 62 then '-' else '_'

/-- The 6-bit value of a base64url alphabet character, `none` for
non-alphabet characters. -/
def b64uVal (c : Char) : Option Nat :=
  if 'A' ≤ c ∧ c ≤ 'Z' then some (c.toNat - 65)
  else if 'a' ≤ c ∧ c ≤ 'z' then some (c.toNat - 97 + 26)
  else if '0' ≤ c ∧ c ≤ '9' then some (c.toNat - 48 + 52)
  else if c = '-' then some 62
  else if c = '_' then some 63
  else none

/-- `base64.urlsafe_b64encode` on a byte list, including `=` padding. -/
def b64uEncodeBytes : List Nat → List Char
  | [] => []
  | [a] => [b64uChar (a / 4), b64uChar (a % 4 * 16), '=', '=']
  | [a, b] => [b64uChar (a / 4), b64uChar (a % 4 * 16 + b / 16), b64uChar (b % 16 * 4), '=']
  | a :: b :: c :: rest =>
    b64uChar (a / 4) :: b64uChar (a % 4 * 16 + b / 16) ::
    b64uChar (b % 16 * 4 + c / 64) :: b64uChar (c % 64) :: b64uEncodeBytes rest

/-- Reassemble bytes from a list of 6-bit values whose length is `≡ 0, 2, 3
(mod 4)`; a trailing group of one value is malformed. -/
def b64uDecodeQuads : List Nat → Option (List Nat)
  | [] => some []
  | [a, b] => some [a * 4 + b / 16]
  | [a, b, c] => some [a * 4 + b / 16, b % 16 * 16 + c / 4]
  | a :: b :: c :: d :: rest =>
    (b64uDecodeQuads rest).map
      (fun t => (a * 4 + b / 16) :: (b % 16 * 16 + c / 4) :: (c % 4 * 64 + d) :: t)
  | _ => none

/-- `base64.urlsafe_b64decode` in its default (non-strict) mode: characters
outside the alphabet are discarded, and everything from the first `=` padding
character on is ignored. -/
def b64uDecode (s : List Char) : Option (List Nat) :=
  let valid := s.filter (fun c => (b64uVal c).isSome || c == '=')
  let data := valid.takeWhile (fun c => c != '=')
  b64uDecodeQuads (data.filterMap b64uVal)

/-- One character of `str.encode()`: UTF-8 encoding of a code point. -/
def utf8EncodeChar (c : Char) : List Nat :=
  let n := c.toNat
  if n < 128 then [n]
  else if n < 2048 then [192 + n / 64, 128 + n % 64]
  else if n < 65536 then [224 + n / 4096, 128 + n / 64 % 64, 128 + n % 64]
  else [240 + n / 262144, 128 + n / 4096 % 64, 128 + n / 64 % 64, 128 + n % 64]

/-- Python `s.encode()`: the UTF-8 bytes of a string. -/
def utf8Encode (s : String) : List Nat :=
  s.data.foldr (fun c acc => utf8EncodeChar c ++ acc) []

/-- One step of strict UTF-8 decoding (Python `bytes.decode()`): rejects
continuation-byte errors, overlong encodings, surrogates and out-of-range
code points.  The `Nat` argument is fuel (one unit per decoded character). -/
def utf8DecodeAux : Nat → List Nat → Option (List Char)
  | _, [] => some []
  | 0, _ :: _ => none
  | fuel + 1, b :: rest =>
    if b < 128 then (utf8DecodeAux fuel rest).map (fun t => Char.ofNat b :: t)
    else if b < 194 then none
    else if b < 224 then
      match rest with
      | b2 :: rest2 =>
        if 128 ≤ b2 ∧ b2 < 192 then
          (utf8DecodeAux fuel rest2).map
            (fun t => Char.ofNat ((b - 192) * 64 + (b2 - 128)) :: t)
        else none
      | [] => none
    else if b < 240 then
      match rest with
      | b2 :: b3 :: rest3 =>
        let lo2 := if b = 224 then 160 else 128
        let hi2 := if b = 237 then 160 else 192
        if lo2 ≤ b2 ∧ b2 < hi2 ∧ 128 ≤ b3 ∧ b3 < 192 then
          (utf8DecodeAux fuel rest3).map
            (fun t => Char.ofNat ((b - 224) * 4096 + (b2 - 128) * 64 + (b3 - 128)) :: t)
        else none
      | _ => none
    else if b < 245 then
      match rest with
      | b2 :: b3 :: b4 :: rest4 =>
        let lo2 := if b = 240 then 144 else 128
        let hi2 := if b = 244 then 144 else 192
        if lo2 ≤ b2 ∧ b2 < hi2 ∧ 128 ≤ b3 ∧ b3 < 192 ∧ 128 ≤ b4 ∧ b4 < 192 then
          (utf8DecodeAux fuel rest4).map
            (fun t =>
              Char.ofNat ((b - 240) * 262144 + (b2 - 128) * 4096 + (b3 - 128) * 64 + (b4 - 128)) :: t)
        else none
      | _ => none
    else none

/-- Python `bytes.decode()`: strict UTF-8 decoding. -/
def utf8Decode (bs : List Nat) : Option (List Char) :=
  utf8DecodeAux bs.length bs

/-- Lowercase hexadecimal digit. -/
def hexDigit (n : Nat) : Char :=
  if n < 10 then Char.ofNat (48 + n) else Char.ofNat (87 + n)

/-- Four lowercase hexadecimal digits, as in Python `\uXXXX` escapes. -/
def hex4 (n : Nat) : String :=
  ⟨[hexDigit (n / 4096 % 16), hexDigit (n / 256 % 16), hexDigit (n / 16 % 16),
    hexDigit (n % 16)]⟩

/-- `json.dumps` escaping of one character of a string literal, with the
default `ensure_ascii=True` (non-ASCII code points become `\uXXXX`, beyond
the BMP a surrogate pair). -/
def jsonEscapeChar (c : Char) : String :=
  if c = '"' then "\\\""
  else if c = '\\' then "\\\\"
  else if c = '\n' then "\\n"
  else if c = '\t' then "\\t"
  else if c = '\r' then "\\r"
  else if c = '\x08' then "\\b"
  else if c = '\x0c' then "\\f"
  else if c.toNat < 32 then "\\u" ++ hex4 c.toNat
  else if c.toNat < 127 then String.singleton c
  else if c.toNat < 65536 then "\\u" ++ hex4 c.toNat
  else
    "\\u" ++ hex4 (55296 + (c.toNat - 65536) / 1024) ++
    "\\u" ++ hex4 (56320 + (c.toNat - 65536) % 1024)

/-- `json.dumps` of a string value. -/
def jsonDumpsStr (s : String) : String :=
  "\"" ++ s.data.foldr (fun c acc => jsonEscapeChar c ++ acc) "" ++ "\""

mutual

/-- `json.dumps(v, separators=(isep, ksep))`. -/
def jsonDumpsVal (isep ksep : String) : Json → String
  | .null => "null"
  | .bool true => "true"
  | .bool false => "false"
  | .num n => toString n
  | .str s => jsonDumpsStr s
  | .arr xs => "[" ++ jsonDumpsList isep ksep xs ++ "]"
  | .obj kvs => "\x7b" ++ jsonDumpsKvs isep ksep kvs ++ "\x7d"

/-- Comma-joined `json.dumps` of array elements. -/
def jsonDumpsList (isep ksep : String) : List Json → String
  | [] => ""
  | [x] => jsonDumpsVal isep ksep x
  | x :: y :: rest => jsonDumpsVal isep ksep x ++ isep ++ jsonDumpsList isep ksep (y :: rest)

/-- Comma-joined `json.dumps` of object members. -/
def jsonDumpsKvs (isep ksep : String) : List (String × Json) → String
  | [] => ""
  | [(k, v)] => jsonDumpsStr k ++ ksep ++ jsonDumpsVal isep ksep v
  | (k, v) :: kv :: rest =>
    jsonDumpsStr k ++ ksep ++ jsonDumpsVal isep ksep v ++ isep ++
    jsonDumpsKvs isep ksep (kv :: rest)

end

/-- `json.dumps(v)` with the default separators `(', ', ': ')`, as used by
`classify_query` and `send_json_response`. -/
def jsonDumps (v : Json) : String := jsonDumpsVal ", " ": " v

/-- `json.dumps(v, separators=(',', ':'))`, as used by `create_jwt_token`. -/
def jsonDumpsCompact (v : Json) : String := jsonDumpsVal "," ":" v

/-- JSON insignificant whitespace, skipped between tokens by `json.loads`. -/
def skipWs (l : List Char) : List Char :=
  l.dropWhile (fun c => c == ' ' || c == '\t' || c == '\n' || c == '\r')

/-- The value of a hexadecimal digit, `none` otherwise. -/
def parseHexDigit (c : Char) : Option Nat :=
  if '0' ≤ c ∧ c ≤ '9' then some (c.toNat - 48)
  else if 'a' ≤ c ∧ c ≤ 'f' then some (c.toNat - 87)
  else if 'A' ≤ c ∧ c ≤ 'F' then some (c.toNat - 55)
  else none

/-- Body of a JSON string literal (after the opening quote), per `json.loads`:
escape sequences are interpreted, raw control characters are rejected.
Unpaired `\uXXXX` surrogates are rejected (never produced by the demo). -/
def parseJsonStrAux : Nat → List Char → Option (String × List Char)
  | 0, _ => none
  | _ + 1, [] => none
  | fuel + 1, c :: rest =>
    if c = '"' then some ("", rest)
    else if c = '\\' then
      match rest with
      | [] => none
      | e :: rest2 =>
        let cont := fun (ch : Char) (r : List Char) =>
          (parseJsonStrAux fuel r).map (fun p => (String.singleton ch ++ p.1, p.2))
        if e = '"' then cont '"' rest2
        else if e = '\\' then cont '\\' rest2
        else if e = '/' then cont '/' rest2
        else if e = 'n' then cont '\n' rest2
        else if e = 't' then cont '\t' rest2
        else if e = 'r' then cont '\r' rest2
        else if e = 'b' then cont '\x08' rest2
        else if e = 'f' then cont '\x0c' rest2
        else if e = 'u' then
          match rest2 with
          | h1 :: h2 :: h3 :: h4 :: rest3 =>
            match parseHexDigit h1, parseHexDigit h2, parseHexDigit h3, parseHexDigit h4 with
            | some n1, some n2, some n3, some n4 =>
              let n := n1 * 4096 + n2 * 256 + n3 * 16 + n4
              if 55296 ≤ n ∧ n < 57344 then none else cont (Char.ofNat n) rest3
            | _, _, _, _ => none
          | _ => none
        else none
    else if c.toNat < 32 then none
    else (parseJsonStrAux fuel rest).map (fun p => (String.singleton c ++ p.1, p.2))

/-- Greedy decimal digit run, accumulating into `acc`. -/
def parseNatAux : List Char → Nat → Nat × List Char
  | [], acc => (acc, [])
  | c :: rest, acc =>
    if '0' ≤ c ∧ c ≤ '9' then parseNatAux rest (acc * 10 + (c.toNat - 48))
    else (acc, c :: rest)

/-- Reject a number with a float continuation (`.`, `e`, `E`): Python would
parse a float there, which this embedding deliberately does not model. -/
def finishNum (neg : Bool) : Nat × List Char → Option (Json × List Char)
  | (n, rest) =>
    match rest with
    | c :: _ => if c = '.' ∨ c = 'e' ∨ c = 'E' then none
                else some (.num (if neg then -(n : Int) else (n : Int)), rest)
    | [] => some (.num (if neg then -(n : Int) else (n : Int)), rest)

mutual

/-- One JSON value, per `json.loads`.  Floats are rejected (see `Json`);
leading zeros are rejected as in Python.  The `Nat` argument is fuel. -/
def parseJsonVal : Nat → List Char → Option (Json × List Char)
  | 0, _ => none
  | fuel + 1, input =>
    match skipWs input with
    | [] => none
    | c :: rest =>
      if c = '"' then
        (parseJsonStrAux (fuel + 1) rest).map (fun p => (Json.str p.1, p.2))
      else if c = '[' then
        match skipWs rest with
        | ']' :: rest2 => some (.arr [], rest2)
        | _ => (parseJsonArrItems fuel rest).map (fun p => (Json.arr p.1, p.2))
      else if c = '\x7b' then
        match skipWs rest with
        | '\x7d' :: rest2 => some (.obj [], rest2)
        | _ => (parseJsonObjItems fuel rest).map (fun p => (Json.obj p.1, p.2))
      else if c = 't' then
        match rest with
        | 'r' :: 'u' :: 'e' :: rest2 => some (.bool true, rest2)
        | _ => none
      else if c = 'f' then
        match rest with
        | 'a' :: 'l' :: 's' :: 'e' :: rest2 => some (.bool false, rest2)
        | _ => none
      else if c = 'n' then
        match rest with
        | 'u' :: 'l' :: 'l' :: rest2 => some (.null, rest2)
        | _ => none
      else if c = '-' then
        match rest with
        | d :: rest2 =>
          if '0' ≤ d ∧ d ≤ '9' then
            match rest2 with
            | d2 :: _ => if d = '0' ∧ '0' ≤ d2 ∧ d2 ≤ '9' then none
                         else finishNum true (parseNatAux rest 0)
            | [] => finishNum true (parseNatAux rest 0)
          else none
        | [] => none
      else if '0' ≤ c ∧ c ≤ '9' then
        match rest with
        | d2 :: _ => if c = '0' ∧ '0' ≤ d2 ∧ d2 ≤ '9' then none
                     else finishNum false (parseNatAux (c :: rest) 0)
        | [] => finishNum false (parseNatAux (c :: rest) 0)
      else none

/-- Non-empty comma-separated array items (after `[`). -/
def parseJsonArrItems : Nat → List Char → Option (List Json × List Char)
  | 0, _ => none
  | fuel + 1, input =>
    match parseJsonVal fuel input with
    | none => none
    | some (v, rest) =>
      match skipWs rest with
      | ',' :: rest2 =>
        (parseJsonArrItems fuel rest2).map (fun p => (v :: p.1, p.2))
      | ']' :: rest2 => some ([v], rest2)
      | _ => none

/-- Non-empty comma-separated object members (after the opening brace). -/
def parseJsonObjItems : Nat → List Char → Option (List (String × Json) × List Char)
  | 0, _ => none
  | fuel + 1, input =>
    match skipWs input with
    | '"' :: rest =>
      match parseJsonStrAux (fuel + 1) rest with
      | none => none
      | some (k, rest2) =>
        match skipWs rest2 with
        | ':' :: rest3 =>
          match parseJsonVal fuel rest3 with
          | none => none
          | some (v, rest4) =>
            match skipWs rest4 with
            | ',' :: rest5 =>
              (parseJsonObjItems fuel rest5).map (fun p => ((k, v) :: p.1, p.2))
            | '\x7d' :: rest5 => some ([(k, v)], rest5)
            | _ => none
        | _ => none
    | _ => none

end

/-- `json.loads`: parse one JSON document, requiring the whole input to be
consumed (up to trailing whitespace). -/
def jsonParse (s : String) : Option Json :=
  match parseJsonVal (s.data.length * 4 + 4) s.data with
  | some (v, rest) => if (skipWs rest).isEmpty then some v else none
  | none => none

/-- Right rotation of a 32-bit word (represented as `Nat < 2^32`). -/
def rotr32 (n x : Nat) : Nat := x / 2 ^ n + x % 2 ^ n * 2 ^ (32 - n)

/-- SHA-256 round constants (the 64 standard words, written in decimal). -/
def sha256K : List Nat :=
  [1116352408, 1899447441, 3049323471, 3921009573, 961987163, 1508970993,
   2453635748, 2870763221, 3624381080, 310598401, 607225278, 1426881987,
   1925078388, 2162078206, 2614888103, 3248222580, 3835390401, 4022224774,
   264347078, 604807628, 770255983, 1249150122, 1555081692, 1996064986,
   2554220882, 2821834349, 2952996808, 3210313671, 3336571891, 3584528711,
   113926993, 338241895, 666307205, 773529912, 1294757372, 1396182291,
   1695183700, 1986661051, 2177026350, 2456956037, 2730485921, 2820302411,
   3259730800, 3345764771, 3516065817, 3600352804, 4094571909, 275423344,
   430227734, 506948616, 659060556, 883997877, 958139571, 1322822218,
   1537002063, 1747873779, 1955562222, 2024104815, 2227730452, 2361852424,
   2428436474, 2756734187, 3204031479, 3329325298]

/-- SHA-256 message-schedule sigma functions. -/
def sha256s0 (x : Nat) : Nat := Nat.xor (Nat.xor (rotr32 7 x) (rotr32 18 x)) (x / 2 ^ 3)

/-- See `sha256s0`. -/
def sha256s1 (x : Nat) : Nat := Nat.xor (Nat.xor (rotr32 17 x) (rotr32 19 x)) (x / 2 ^ 10)

/-- SHA-256 compression Sigma functions. -/
def sha256S0 (x : Nat) : Nat := Nat.xor (Nat.xor (rotr32 2 x) (rotr32 13 x)) (rotr32 22 x)

/-- See `sha256S0`. -/
def sha256S1 (x : Nat) : Nat := Nat.xor (Nat.xor (rotr32 6 x) (rotr32 11 x)) (rotr32 25 x)

/-- SHA-256 working state: eight 32-bit words. -/
structure Sha256State where
  a : Nat
  b : Nat
  c : Nat
  d : Nat
  e : Nat
  f : Nat
  g : Nat
  h : Nat

/-- Big-endian 32-bit words from a byte list (length a multiple of 4). -/
def bytesToWords : List Nat → List Nat
  | a :: b :: c :: d :: rest => (a * 16777216 + b * 65536 + c * 256 + d) :: bytesToWords rest
  | _ => []

/-- Big-endian bytes of one 32-bit word. -/
def wordToBytes (w : Nat) : List Nat :=
  [w / 16777216 % 256, w / 65536 % 256, w / 256 % 256, w % 256]

/-- SHA-256 message padding: `0x80`, zeros to 56 mod 64, 64-bit bit length. -/
def sha256Pad (msg : List Nat) : List Nat :=
  let len := msg.length
  let zeros := (64 + 56 - (len + 1) % 64) % 64
  let bitLen := len * 8
  msg ++ 128 :: List.replicate zeros 0 ++
    [bitLen / 2 ^ 56 % 256, bitLen / 2 ^ 48 % 256, bitLen / 2 ^ 40 % 256,
     bitLen / 2 ^ 32 % 256, bitLen / 2 ^ 24 % 256, bitLen / 2 ^ 16 % 256,
     bitLen / 2 ^ 8 % 256, bitLen % 256]

/-- Split a word list into 16-word blocks (length a multiple of 16). -/
def wordBlocks : List Nat → List (List Nat)
  | w0 :: w1 :: w2 :: w3 :: w4 :: w5 :: w6 :: w7 ::
    w8 :: w9 :: w10 :: w11 :: w12 :: w13 :: w14 :: w15 :: rest =>
    [w0, w1, w2, w3, w4, w5, w6, w7, w8, w9, w10, w11, w12, w13, w14, w15] ::
    wordBlocks rest
  | _ => []

/-- Extend a 16-word block to the 64-word SHA-256 message schedule. -/
def sha256Schedule (block : List Nat) : List Nat :=
  let ext := (List.range 48).foldl
    (fun w _ =>
      let i := w.length
      let n := (sha256s1 (w.getD (i - 2) 0) + w.getD (i - 7) 0 +
                sha256s0 (w.getD (i - 15) 0) + w.getD (i - 16) 0) % 2 ^ 32
      w ++ [n])
    block
  ext

/-- One SHA-256 compression round. -/
def sha256Round (st : Sha256State) (kw : Nat × Nat) : Sha256State :=
  let t1 := (st.h + sha256S1 st.e + Nat.xor (Nat.land st.e st.f) (Nat.land (2 ^ 32 - 1 - st.e) st.g)
             + kw.1 + kw.2) % 2 ^ 32
  let t2 := (sha256S0 st.a +
             Nat.xor (Nat.xor (Nat.land st.a st.b) (Nat.land st.a st.c)) (Nat.land st.b st.c)) % 2 ^ 32
  { a := (t1 + t2) % 2 ^ 32, b := st.a, c := st.b, d := st.c,
    e := (st.d + t1) % 2 ^ 32, f := st.e, g := st.f, h := st.g }

/-- Process one 512-bit block into the running hash (eight words). -/
def sha256Block (hs : List Nat) (block : List Nat) : List Nat :=
  let w := sha256Schedule block
  let init : Sha256State :=
    { a := hs.getD 0 0, b := hs.getD 1 0, c := hs.getD 2 0, d := hs.getD 3 0,
      e := hs.getD 4 0, f := hs.getD 5 0, g := hs.getD 6 0, h := hs.getD 7 0 }
  let st := (sha256K.zip w).foldl sha256Round init
  [(hs.getD 0 0 + st.a) % 2 ^ 32, (hs.getD 1 0 + st.b) % 2 ^ 32,
   (hs.getD 2 0 + st.c) % 2 ^ 32, (hs.getD 3 0 + st.d) % 2 ^ 32,
   (hs.getD 4 0 + st.e) % 2 ^ 32, (hs.getD 5 0 + st.f) % 2 ^ 32,
   (hs.getD 6 0 + st.g) % 2 ^ 32, (hs.getD 7 0 + st.h) % 2 ^ 32]

/-- SHA-256 of a byte list, as a list of 32 bytes. -/
def sha256 (msg : List Nat) : List Nat :=
  let blocks := wordBlocks (bytesToWords (sha256Pad msg))
  let hs := blocks.foldl sha256Block
    [1779033703, 3144134277, 1013904242, 2773480762,
     1359893119, 2600822924, 528734635, 1541459225]
  hs.foldr (fun w acc => wordToBytes w ++ acc) []

/-- `hmac.new(key, msg, hashlib.sha256).digest()` (keys of at most one block,
which covers the demo secret). -/
def hmacSha256 (key msg : List Nat) : List Nat :=
  let key2 := if 64 < key.length then sha256 key else key
  let kp := key2 ++ List.replicate (64 - key2.length) 0
  sha256 (kp.map (Nat.xor 92) ++ sha256 (kp.map (Nat.xor 54) ++ msg))

/-- Python `str.rstrip('=')` on base64 output. -/
def rstripEq (cs : List Char) : String :=
  ⟨(cs.reverse.dropWhile (fun c => c == '=')).reverse⟩

/-- ASCII lowercase character (used by `str.lower()`; Python lowercases the
full Unicode range, but every string the demo lowers is ASCII). -/
def asciiLowerChar (c : Char) : Char :=
  if 'A' ≤ c ∧ c ≤ 'Z' then Char.ofNat (c.toNat + 32) else c

/-- Python `s.lower()` restricted to ASCII (see `asciiLowerChar`). -/
def asciiLower (s : String) : String := ⟨s.data.map asciiLowerChar⟩

/-- The apostrophe character, used by Python `repr` of strings. -/
def squote : Char := Char.ofNat 39

/-- Python `repr` of a `str`: apostrophe-quoted unless the string contains an
apostrophe but no double quote.  Backslashes and the quote character are
escaped; escaping of control characters is elided (no string fed to `repr`
by the modelled flows contains one). -/
def pyReprStr (s : String) : String :=
  let q := if s.data.contains squote && !(s.data.contains '"') then '"' else squote
  ⟨q :: s.data.foldr
      (fun c acc => (if c == '\\' || c == q then ['\\', c] else [c]) ++ acc) [q]⟩

mutual

/-- Python `repr` of a decoded JSON value. -/
def pyRepr : Json → String
  | .null => "None"
  | .bool true => "True"
  | .bool false => "False"
  | .num n => toString n
  | .str s => pyReprStr s
  | .arr xs => "[" ++ pyReprList xs ++ "]"
  | .obj kvs => "\x7b" ++ pyReprKvs kvs ++ "\x7d"

/-- Comma-joined `repr` of list elements. -/
def pyReprList : List Json → String
  | [] => ""
  | [x] => pyRepr x
  | x :: y :: rest => pyRepr x ++ ", " ++ pyReprList (y :: rest)

/-- Comma-joined `repr` of dict members. -/
def pyReprKvs : List (String × Json) → String
  | [] => ""
  | [(k, v)] => pyReprStr k ++ ": " ++ pyRepr v
  | (k, v) :: kv :: rest => pyReprStr k ++ ": " ++ pyRepr v ++ ", " ++ pyReprKvs (kv :: rest)

end

/-- Python `str(v)` of a decoded JSON value, as used inside f-strings:
identity on strings, `repr` otherwise. -/
def pyStr (j : Json) : String :=
  match j with
  | .str s => s
  | _ => pyRepr j

/-! ### `tbac-live-test.py` -/

/-- One record of the hardcoded user table in `get_user_info`. -/
structure UserInfo where
  name : String
  department : String
  access_level : String
  roles : List String
deriving Repr, DecidableEq

/-- `get_user_info` (tbac-live-test.py:532): the hardcoded user table, with
the `users.get(email, {...})` fallback for unknown emails. -/
def get_user_info (email : String) : UserInfo :=
  if email = "alice@engineering.corp" then
    ⟨"Alice Johnson", "engineering", "full", ["developer", "data_reader", "engineer"]⟩
  else if email = "bob@sales.corp" then
    ⟨"Bob Smith", "sales", "limited", ["sales_rep", "customer_data_reader"]⟩
  else if email = "charlie@finance.corp" then
    ⟨"Charlie Brown", "finance", "read_only", ["financial_analyst", "report_reader"]⟩
  else if email = "guest@external.com" then
    ⟨"Guest User", "external", "restricted", ["guest"]⟩
  else
    ⟨"Unknown User", "unknown", "none", []⟩

/-- `create_jwt_token` (tbac-live-test.py:601): base64url-encode the compact
JSON dumps of header and payload, sign `header.payload` with
HMAC-SHA256 under `'demo-secret'`, and join the three segments with dots. -/
def create_jwt_token (header payload : Json) : String :=
  let secret := "demo-secret"
  let header_encoded := rstripEq (b64uEncodeBytes (utf8Encode (jsonDumpsCompact header)))
  let payload_encoded := rstripEq (b64uEncodeBytes (utf8Encode (jsonDumpsCompact payload)))
  let message := header_encoded ++ "." ++ payload_encoded
  let signature := hmacSha256 (utf8Encode secret) (utf8Encode message)
  let signature_encoded := rstripEq (b64uEncodeBytes signature)
  header_encoded ++ "." ++ payload_encoded ++ "." ++ signature_encoded

/-- `generate_access_token` (tbac-live-test.py:568).  `now` is
`int(time.time())`; the token expires one hour later. -/
def generate_access_token (email account_id : String) (user_info : UserInfo)
    (now : Nat) : String :=
  create_jwt_token
    (.obj [("alg", .str "HS256"), ("typ", .str "JWT")])
    (.obj [("sub", .str email), ("aud", .str "opensearch-cedarling"),
           ("iss", .str "https://jans.example.com"),
           ("exp", .num ((now : Int) + 3600)), ("iat", .num (now : Int)),
           ("account_id", .str account_id),
           ("department", .str user_info.department),
           ("access_level", .str user_info.access_level),
           ("roles", .arr (user_info.roles.map Json.str))])

/-- `generate_id_token` (tbac-live-test.py:585). -/
def generate_id_token (email : String) (user_info : UserInfo) (now : Nat) : String :=
  create_jwt_token
    (.obj [("alg", .str "HS256"), ("typ", .str "JWT")])
    (.obj [("sub", .str email), ("aud", .str "opensearch-cedarling"),
           ("iss", .str "https://jans.example.com"),
           ("exp", .num ((now : Int) + 3600)), ("iat", .num (now : Int)),
           ("name", .str user_info.name), ("email", .str email),
           ("department", .str user_info.department)])

/-- The session dict built by `handle_login_post`. -/
structure Session where
  email : String
  account_id : String
  department : String
  access_level : String
  access_token : String
  id_token : String
deriving Repr

/-- The response of `handle_login_post`. -/
structure LoginResponse where
  success : Bool
  session : Session
deriving Repr

/-- `handle_login_post` (tbac-live-test.py:444): look the email up in the user
table, mint fresh access and ID tokens, and unconditionally answer
`success = True`.  The request body fields `email` and `account_id` are
strings (as sent by the demo page); `now` is the wall clock. -/
def handle_login_post (email account_id : String) (now : Nat) : LoginResponse :=
  let user_info := get_user_info email
  let access_token := generate_access_token email account_id user_info now
  let id_token := generate_id_token email user_info now
  { success := true,
    session := { email := email, account_id := account_id,
                 department := user_info.department,
                 access_level := user_info.access_level,
                 access_token := access_token, id_token := id_token } }

/-- The payload-segment portion of `decode_jwt_token` (tbac-live-test.py:623):
pad the base64url segment to a multiple of four, decode, UTF-8 decode, and
`json.loads` the result.  Exception messages are abstracted to short tags. -/
def parsePayloadSeg (payload_part : List Char) : Except String Json :=
  let padded := payload_part ++ List.replicate (4 - payload_part.length % 4) '='
  match b64uDecode padded with
  | none => .error "Token decode error: binascii.Error"
  | some payload_bytes =>
    match utf8Decode payload_bytes with
    | none => .error "Token decode error: UnicodeDecodeError"
    | some chars =>
      match jsonParse ⟨chars⟩ with
      | none => .error "Token decode error: JSONDecodeError"
      | some payload => .ok payload

/-- `decode_jwt_token` (tbac-live-test.py:616): split on `'.'`, require three
segments, and decode the payload segment only — the header is ignored and the
signature is never verified. -/
def decode_jwt_token (token : String) : Except String Json :=
  match pySplitChar '.' token.data with
  | [_, payload_part, _] => parsePayloadSeg payload_part
  | _ => .error "Token decode error: Invalid token format"

/-- `classify_query` (tbac-live-test.py:634): lowercase the JSON dump of the
query and pick the first matching substring category. -/
def classify_query (query : Json) : String :=
  let query_str := asciiLower (jsonDumps query)
  if isSubstring "confidential" query_str || isSubstring "admin" query_str then
    "confidential"
  else if isSubstring "financial" query_str || isSubstring "finance" query_str then
    "financial"
  else if isSubstring "engineering" query_str || isSubstring "technical" query_str then
    "engineering"
  else if isSubstring "customer" query_str || isSubstring "account_id" query_str then
    "customer_data"
  else if isSubstring "public" query_str then
    "public"
  else
    "general"

/-- The `authorization_request` dict built by `handle_opensearch_query_post`. -/
structure AuthRequest where
  principal : String
  action : String
  resource : String
  context : List (String × Json)

/-- The dict returned by `evaluate_tbac_policy`.  `execution_time_ms` is the
measured wall-clock duration (passed in as a parameter); `timestamp` is the
epoch second behind the formatted `strftime` string. -/
structure TbacResult where
  decision : String
  reason : String
  policies_applied : List String
  execution_time_ms : Nat
  principal : String
  action : String
  resource : String
  token_valid : Bool
  account_match : Bool
  department_match : Bool
  timestamp : Nat
deriving Repr

/-- `evaluate_tbac_policy` (tbac-live-test.py:651): a five-branch `if/elif`
chain over the `query_type` in the request context, defaulting to DENY.
The final `department in resource` membership raises `TypeError` when the
`department` claim is not a string, which the bare function does not catch;
this is modelled by the `Except` error. -/
def evaluate_tbac_policy (auth_request : AuthRequest)
    (token_claims : List (String × Json)) (elapsed_ms now : Nat) :
    Except String TbacResult :=
  let department := dictGet token_claims "department" (.str "")
  let access_level := dictGet token_claims "access_level" (.str "")
  let account_id := dictGet token_claims "account_id" (.str "")
  let query_type := dictGet auth_request.context "query_type" (.str "")
  let dpr : String × List String × String :=
    if Json.beq query_type (.str "public") then
      ("ALLOW", ["PublicDataAccess"], "Public data accessible to all users")
    else if Json.beq query_type (.str "customer_data") then
      if Json.beq account_id (dictGet auth_request.context "account_id" (.str "")) then
        ("ALLOW", ["CustomerDataAccess", "AccountIsolation"],
         "Account ID matches user account")
      else
        ("DENY", [], "Account ID mismatch - user can only access own data")
    else if Json.beq query_type (.str "financial") then
      if Json.beq department (.str "finance") &&
         (Json.beq access_level (.str "full") || Json.beq access_level (.str "read_only")) then
        ("ALLOW", ["FinancialDataAccess", "DepartmentAccess"],
         "Finance department access granted")
      else
        ("DENY", [], "Financial data restricted to finance department")
    else if Json.beq query_type (.str "engineering") then
      if Json.beq department (.str "engineering") && Json.beq access_level (.str "full") then
        ("ALLOW", ["EngineeringDataAccess", "DepartmentAccess"],
         "Engineering department full access granted")
      else
        ("DENY", [],
         "Engineering data restricted to engineering department with full access")
    else if Json.beq query_type (.str "confidential") then
      if Json.beq access_level (.str "admin") then
        ("ALLOW", ["ConfidentialDataAccess", "AdminAccess"],
         "Admin access to confidential data")
      else
        ("DENY", [], "Confidential data requires admin access level")
    else
      ("DENY", [], "Default deny")
  match department with
  | .str dep =>
    .ok { decision := dpr.1, reason := dpr.2.2, policies_applied := dpr.2.1,
          execution_time_ms := elapsed_ms,
          principal := auth_request.principal, action := auth_request.action,
          resource := auth_request.resource, token_valid := true,
          account_match :=
            Json.beq account_id (dictGet auth_request.context "account_id" (.str "")),
          department_match :=
            isSubstring dep auth_request.resource ||
            Json.beq query_type (.str "public"),
          timestamp := now }
  | _ => .error "TypeError: department in resource requires a string claim"

/-- `simulate_opensearch_query` (tbac-live-test.py:724): fabricated result
literals keyed on `'customer' in index_name` style membership tests, which
follow Python `in` semantics (`pyInStr`): substring for a string index,
element/key membership for a list/dict index, `TypeError` for a
non-iterable scalar index. -/
def simulate_opensearch_query (index_name : Json) (_query : Json)
    (token_claims : List (String × Json)) : Except String Json := do
  let account_id := dictGet token_claims "account_id" (.str "")
  if (← pyInStr "customer" index_name) then
    .ok (.obj [("took", .num 5), ("timed_out", .bool false),
      ("hits", .obj [
        ("total", .obj [("value", .num 3), ("relation", .str "eq")]),
        ("hits", .arr [
          .obj [("_index", index_name), ("_id", .str "1"),
            ("_source", .obj [("customer_name", .str "Acme Corp"),
              ("account_id", account_id), ("status", .str "active"),
              ("last_login", .str "2024-06-05T10:30:00Z")])],
          .obj [("_index", index_name), ("_id", .str "2"),
            ("_source", .obj [("customer_name", .str "TechStart Inc"),
              ("account_id", account_id), ("status", .str "active"),
              ("last_login", .str "2024-06-04T15:20:00Z")])]])])])
  else if (← pyInStr "financial" index_name) then
    .ok (.obj [("took", .num 12), ("timed_out", .bool false),
      ("hits", .obj [
        ("total", .obj [("value", .num 2), ("relation", .str "eq")]),
        ("hits", .arr [
          .obj [("_index", index_name), ("_id", .str "report_2024_q1"),
            ("_source", .obj [("report_type", .str "quarterly_financial"),
              ("quarter", .str "Q1_2024"), ("department", .str "finance"),
              ("total_revenue", .num 2500000), ("date", .str "2024-03-31")])]])])])
  else if (← pyInStr "engineering" index_name) then
    .ok (.obj [("took", .num 8), ("timed_out", .bool false),
      ("hits", .obj [
        ("total", .obj [("value", .num 4), ("relation", .str "eq")]),
        ("hits", .arr [
          .obj [("_index", index_name), ("_id", .str "spec_001"),
            ("_source", .obj [("document_type", .str "technical_specification"),
              ("project", .str "cedarling_integration"),
              ("department", .str "engineering"), ("version", .str "2.1.0"),
              ("last_updated", .str "2024-06-01")])]])])])
  else if (← pyInStr "public" index_name) then
    .ok (.obj [("took", .num 3), ("timed_out", .bool false),
      ("hits", .obj [
        ("total", .obj [("value", .num 10), ("relation", .str "eq")]),
        ("hits", .arr [
          .obj [("_index", index_name), ("_id", .str "announcement_001"),
            ("_source", .obj [("title", .str "Company News Update"),
              ("visibility", .str "public"),
              ("content", .str "Latest company announcements and updates"),
              ("published", .str "2024-06-05")])]])])])
  else
    .ok (.obj [("took", .num 1), ("timed_out", .bool false),
      ("hits", .obj [
        ("total", .obj [("value", .num 0), ("relation", .str "eq")]),
        ("hits", .arr [])])])

/-- The JSON body sent back by `handle_opensearch_query_post`: either one of
the two early DENY responses (shape `error` + brief `authorization`) or the
full response of a completed evaluation. -/
inductive QueryResponse where
  | denied (error : String) (decision : String) (reason : String) : QueryResponse
  | completed (authorization : TbacResult) (opensearch_results : Option Json)
      (index : Json) (query_classification : String) (timestamp : Nat) : QueryResponse
deriving Repr

/-- The `authorization.decision` field of a `QueryResponse`. -/
def QueryResponse.decision : QueryResponse → String
  | .denied _ d _ => d
  | .completed a _ _ _ _ => a.decision

/-- The `authorization.reason` field of a `QueryResponse`. -/
def QueryResponse.reason : QueryResponse → String
  | .denied _ _ r => r
  | .completed a _ _ _ _ => a.reason

/-- `handle_opensearch_query_post` (tbac-live-test.py:471).  `authHeader` is
the `Authorization` request header (`''` when absent) and `data` the parsed
request body (`{}` when empty or undecodable, from `do_POST`).  Only the
`try` around `decode_jwt_token` exists in the source, so the `.get` attribute
accesses on a non-dict body or non-dict decoded payload, and the ill-typed
membership tests further down, raise uncaught exceptions — modelled as
`Except.error`. -/
def handle_opensearch_query_post (authHeader : String) (data : Json)
    (elapsed_ms now : Nat) : Except String QueryResponse :=
  if !(pyStartsWith authHeader "Bearer ") then
    .ok (.denied "Missing or invalid authorization header" "DENY" "No token provided")
  else
    let access_token := authHeader.drop 7
    match decode_jwt_token access_token with
    | .error _ =>
      .ok (.denied "Invalid token format" "DENY" "Invalid token")
    | .ok token_claims =>
      match data with
      | .obj data_kvs =>
        let index_name := dictGet data_kvs "index" (.str "")
        let query := dictGet data_kvs "query" (.obj [])
        match token_claims with
        | .obj claims =>
          let auth_request : AuthRequest :=
            { principal := "user:" ++ pyStr (dictGet claims "sub" (.str "")),
              action := "read",
              resource := "index:" ++ pyStr index_name,
              context := [
                ("account_id", dictGet claims "account_id" (.str "")),
                ("department", dictGet claims "department" (.str "")),
                ("access_level", dictGet claims "access_level" (.str "")),
                ("index_name", index_name),
                ("query_type", .str (classify_query query))] }
          match evaluate_tbac_policy auth_request claims elapsed_ms now with
          | .error e => .error e
          | .ok auth_result =>
            if auth_result.decision = "ALLOW" then
              match simulate_opensearch_query index_name query claims with
              | .error e => .error e
              | .ok results =>
                .ok (.completed auth_result (some results) index_name
                      (classify_query query) now)
            else
              .ok (.completed auth_result none index_name (classify_query query) now)
        | _ => .error "AttributeError: decoded token payload is not a dict"
      | _ => .error "AttributeError: request body is not a dict"

/-! ### `opensearch-cedarling-production.py` and
`deploy-opensearch-with-cedarling.py` -/

/-- The response of `handle_authorization`
(opensearch-cedarling-production.py:399).  The constant float literal
`execution_time_ms = 2.1` is presentation-only and omitted (the embedding
does not model floats); `timestamp` is the epoch second. -/
structure ProdAuthzResponse where
  decision : String
  policies_applied : List String
  principal : Json
  action : Json
  resource : Json
  timestamp : Nat
  cedarling_version : String
  policy_store : String
deriving Repr

/-- `handle_authorization` (opensearch-cedarling-production.py:399): the
decision is `"ALLOW" if "alice" in principal and action in ["read", "write"]
else "DENY"`.  The `"alice" in principal` expression follows Python `in`
semantics (`pyInStr`): substring for a string principal, element/key
membership for a list/dict principal, `TypeError` for a non-iterable scalar
(and `.get` raises `AttributeError` on a non-dict body). -/
def handle_authorization (data : Json) (now : Nat) :
    Except String ProdAuthzResponse :=
  match data with
  | .obj kvs =>
    let principal := dictGet kvs "principal" (.str "")
    let action := dictGet kvs "action" (.str "")
    let resource := dictGet kvs "resource" (.str "")
    match pyInStr "alice" principal with
    | .error e => .error e
    | .ok aliceIn =>
      let decision :=
        if aliceIn &&
           (Json.beq action (.str "read") || Json.beq action (.str "write")) then
          "ALLOW"
        else "DENY"
      .ok { decision := decision,
            policies_applied := ["CustomerDataAccess", "EngineeringAccess"],
            principal := principal, action := action, resource := resource,
            timestamp := now, cedarling_version := "embedded-uniffi",
            policy_store := "opensearch-security-store" }
  | _ => .error "AttributeError: request body is not a dict"

/-- The response of `authorize_data_access`
(deploy-opensearch-with-cedarling.py:361).  The constant float literal
`execution_time_ms = 2.5` is presentation-only and omitted. -/
structure DeployAuthzResponse where
  decision : String
  policies_applied : List String
  principal : Json
  action : Json
  resource : Json
  timestamp : Nat
deriving Repr

/-- `authorize_data_access` (deploy-opensearch-with-cedarling.py:361): the
same hardcoded rule as `handle_authorization` (Python `in` semantics for
`"alice" in principal`, see `pyInStr`), with a one-element
`policies_applied` list. -/
def authorize_data_access (data : Json) (now : Nat) :
    Except String DeployAuthzResponse :=
  match data with
  | .obj kvs =>
    let principal := dictGet kvs "principal" (.str "")
    let action := dictGet kvs "action" (.str "")
    let resource := dictGet kvs "resource" (.str "")
    match pyInStr "alice" principal with
    | .error e => .error e
    | .ok aliceIn =>
      let decision :=
        if aliceIn &&
           (Json.beq action (.str "read") || Json.beq action (.str "write")) then
          "ALLOW"
        else "DENY"
      .ok { decision := decision, policies_applied := ["CustomerDataAccess"],
            principal := principal, action := action, resource := resource,
            timestamp := now }
  | _ => .error "AttributeError: request body is not a dict"

/-! ### Theorems -/

/-- `decode_jwt_token` on a canonically-shaped token (three dot-free
segments) is the payload decoding of the middle segment alone: the header
and signature segments are never inspected. -/
theorem decode_jwt_token_payload_only (h p s : String)
    (hh : '.' ∉ h.data) (hp : '.' ∉ p.data) (hs : '.' ∉ s.data) :
    decode_jwt_token (h ++ "." ++ p ++ "." ++ s) = parsePayloadSeg p.data := by
  have hdata : (h ++ "." ++ p ++ "." ++ s).data
      = h.data ++ '.' :: (p.data ++ '.' :: s.data) := by
    simp [String.data_append]
  unfold decode_jwt_token
  rw [hdata, pySplitChar_append_sep _ _ _ hh, pySplitChar_append_sep _ _ _ hp,
      pySplitChar_no_sep _ _ hs]

/-- C2, counterexample.  The claim says a token whose `expires_at` is not in
the future fails verification with `EXPIRED`.  The token below carries
`exp = 0`, in the past at every verification time, yet `decode_jwt_token`
returns its claims successfully: the code has no `EXPIRED` failure at all
(the payload is `{"sub":"x","exp":0}`, base64url-encoded). -/
theorem c2_expired_token_decodes :
    decode_jwt_token "h.eyJzdWIiOiJ4IiwiZXhwIjowfQ.s" =
      .ok (.obj [("sub", .str "x"), ("exp", .num 0)]) := by
  rfl

/-- C2, amended.  `decode_jwt_token` performs no `expires_at > now` or
`issued_at <= now` check: it takes no clock input, and its result on a
well-formed token is determined by the payload segment alone, so expired and
unexpired tokens with the same payload bytes decode identically. -/
theorem c2_decode_has_no_expiry_check (h p s : String)
    (hh : '.' ∉ h.data) (hp : '.' ∉ p.data) (hs : '.' ∉ s.data) :
    decode_jwt_token (h ++ "." ++ p ++ "." ++ s) = parsePayloadSeg p.data :=
  decode_jwt_token_payload_only h p s hh hp hs

/-- Witness for `c2_decode_has_no_expiry_check` at a concrete token. -/
theorem c2_decode_has_no_expiry_check_witness :
    decode_jwt_token ("h" ++ "." ++ "eyJzdWIiOiJ4IiwiZXhwIjowfQ" ++ "." ++ "sig") =
      parsePayloadSeg "eyJzdWIiOiJ4IiwiZXhwIjowfQ".data :=
  c2_decode_has_no_expiry_check "h" "eyJzdWIiOiJ4IiwiZXhwIjowfQ" "sig"
    (by decide) (by decide) (by decide)

/-- C7.  Token decoding ignores the signature: two tokens with the same
header and payload segments but arbitrary different signature segments
decode to the same claims — the result depends only on the payload
segment. -/
theorem c7_decode_ignores_signature (h p s1 s2 : String)
    (hh : '.' ∉ h.data) (hp : '.' ∉ p.data)
    (hs1 : '.' ∉ s1.data) (hs2 : '.' ∉ s2.data) :
    decode_jwt_token (h ++ "." ++ p ++ "." ++ s1) =
      decode_jwt_token (h ++ "." ++ p ++ "." ++ s2) := by
  rw [decode_jwt_token_payload_only h p s1 hh hp hs1,
      decode_jwt_token_payload_only h p s2 hh hp hs2]

/-- Witness for `c7_decode_ignores_signature`: the same payload under two
different signatures decodes identically. -/
theorem c7_decode_ignores_signature_witness :
    decode_jwt_token ("h" ++ "." ++ "W10" ++ "." ++ "sigA") =
      decode_jwt_token ("h" ++ "." ++ "W10" ++ "." ++ "sigB") :=
  c7_decode_ignores_signature "h" "W10" "sigA" "sigB"
    (by decide) (by decide) (by decide) (by decide)

/-- C1.  For a request whose context classifies the query as
`customer_data` (and whose `department` claim is a string, so that the
evaluation returns), the decision is ALLOW exactly when the token claim
`account_id` is Python-equal to the `account_id` of the request context, and
DENY whenever they differ. -/
theorem c1_customer_data_allow_iff_account_match
    (req : AuthRequest) (claims : List (String × Json)) (e n : Nat) (dep : String)
    (hq : dictGet req.context "query_type" (.str "") = .str "customer_data")
    (hd : dictGet claims "department" (.str "") = .str dep) :
    ∃ r, evaluate_tbac_policy req claims e n = .ok r ∧
      (r.decision = "ALLOW" ↔
        Json.beq (dictGet claims "account_id" (.str ""))
          (dictGet req.context "account_id" (.str "")) = true) ∧
      (Json.beq (dictGet claims "account_id" (.str ""))
          (dictGet req.context "account_id" (.str "")) = false →
        r.decision = "DENY") := by
  cases hacc : Json.beq (dictGet claims "account_id" (.str ""))
      (dictGet req.context "account_id" (.str "")) with
  | true => simp [evaluate_tbac_policy, hq, hd, hacc, Json.beq]
  | false => simp [evaluate_tbac_policy, hq, hd, hacc, Json.beq]

/-- Concrete request for the C1 witness: a `customer_data` query whose
context `account_id` differs from the token claim. -/
def c1WitnessReq : AuthRequest :=
  { principal := "user:bob@sales.corp", action := "read",
    resource := "index:customer-data",
    context := [("account_id", .str "acct_2"), ("query_type", .str "customer_data")] }

/-- Token claims for the C1 witness. -/
def c1WitnessClaims : List (String × Json) :=
  [("account_id", .str "acct_1"), ("department", .str "sales")]

/-- Witness for `c1_customer_data_allow_iff_account_match`: with claim
`account_id = "acct_1"` against context `account_id = "acct_2"` the decision
is DENY. -/
theorem c1_customer_data_allow_iff_account_match_witness :
    ∃ r, evaluate_tbac_policy c1WitnessReq c1WitnessClaims 0 0 = .ok r ∧
      r.decision = "DENY" := by
  obtain ⟨r, hr, _, himp⟩ :=
    c1_customer_data_allow_iff_account_match c1WitnessReq c1WitnessClaims 0 0
      "sales" rfl rfl
  exact ⟨r, hr, himp (by decide)⟩

/-- C3.  When the query type matches none of the five recognized categories
(`public`, `customer_data`, `financial`, `engineering`, `confidential`), the
decision is DENY, the applied-policy list is empty and the reason is the
default-deny reason.  (The `department` claim being a string is what lets
the evaluation return at all; see `evaluate_tbac_policy`.) -/
theorem c3_no_policy_match_denies
    (req : AuthRequest) (claims : List (String × Json)) (e n : Nat) (dep : String)
    (h1 : Json.beq (dictGet req.context "query_type" (.str "")) (.str "public") = false)
    (h2 : Json.beq (dictGet req.context "query_type" (.str "")) (.str "customer_data") = false)
    (h3 : Json.beq (dictGet req.context "query_type" (.str "")) (.str "financial") = false)
    (h4 : Json.beq (dictGet req.context "query_type" (.str "")) (.str "engineering") = false)
    (h5 : Json.beq (dictGet req.context "query_type" (.str "")) (.str "confidential") = false)
    (hd : dictGet claims "department" (.str "") = .str dep) :
    ∃ r, evaluate_tbac_policy req claims e n = .ok r ∧
      r.decision = "DENY" ∧ r.policies_applied = [] ∧ r.reason = "Default deny" := by
  simp [evaluate_tbac_policy, h1, h2, h3, h4, h5, hd]

/-- Witness for `c3_no_policy_match_denies` at a `general` query type. -/
theorem c3_no_policy_match_denies_witness :
    ∃ r, evaluate_tbac_policy
        { principal := "user:x", action := "read", resource := "index:misc",
          context := [("account_id", .str "a"), ("query_type", .str "general")] }
        [("department", .str "sales")] 0 0 = .ok r ∧
      r.decision = "DENY" ∧ r.policies_applied = [] ∧ r.reason = "Default deny" :=
  c3_no_policy_match_denies _ _ 0 0 "sales"
    (by decide) (by decide) (by decide) (by decide) (by decide) rfl

/-- C4.  Whenever `evaluate_tbac_policy` returns, an ALLOW decision comes
with a non-empty `policies_applied` list, and the decision is always either
ALLOW or DENY (DENY being the initialized default that survives when no
branch grants access).  The code contains no forbid policies at all, so the
claim's "no forbid policy matched" conjunct is vacuously true. -/
theorem c4_allow_requires_matched_policies
    (req : AuthRequest) (claims : List (String × Json)) (e n : Nat) (r : TbacResult)
    (hok : evaluate_tbac_policy req claims e n = .ok r) :
    (r.decision = "ALLOW" → r.policies_applied ≠ []) ∧
    (r.decision = "ALLOW" ∨ r.decision = "DENY") := by
  simp only [evaluate_tbac_policy] at hok
  split at hok
  · rw [Except.ok.injEq] at hok
    subst hok
    repeat' split
    all_goals simp
  · simp at hok

/-- Witness for `c4_allow_requires_matched_policies`: a public query is
allowed and indeed reports a matched policy. -/
theorem c4_allow_requires_matched_policies_witness :
    ∃ r, evaluate_tbac_policy
        { principal := "user:x", action := "read", resource := "index:public-data",
          context := [("query_type", .str "public")] }
        [("department", .str "sales")] 0 0 = .ok r ∧
      r.decision = "ALLOW" ∧ r.policies_applied ≠ [] := by
  have h := c4_allow_requires_matched_policies
    { principal := "user:x", action := "read", resource := "index:public-data",
      context := [("query_type", .str "public")] }
    [("department", .str "sales")] 0 0 _ rfl
  exact ⟨_, rfl, rfl, h.1 rfl⟩

/-- C8, amended.  The policy evaluation reads only the `department`,
`access_level` and `account_id` claims: two claim sets that agree on those
three (for example, differing only in `aud`) evaluate identically — there is
no audience check anywhere in the decision path. -/
theorem c8_decision_independent_of_audience
    (req : AuthRequest) (ca cb : List (String × Json)) (e n : Nat)
    (hdep : dictGet ca "department" (.str "") = dictGet cb "department" (.str ""))
    (hacc : dictGet ca "access_level" (.str "") = dictGet cb "access_level" (.str ""))
    (hacct : dictGet ca "account_id" (.str "") = dictGet cb "account_id" (.str "")) :
    evaluate_tbac_policy req ca e n = evaluate_tbac_policy req cb e n := by
  simp only [evaluate_tbac_policy, hdep, hacc, hacct]

/-- Witness for `c8_decision_independent_of_audience`: a mismatched and a
matching audience claim produce the same evaluation. -/
theorem c8_decision_independent_of_audience_witness :
    evaluate_tbac_policy
      { principal := "user:x", action := "read", resource := "index:public-data",
        context := [("query_type", .str "public")] }
      [("aud", .str "evil-service"), ("department", .str "engineering")] 0 0 =
    evaluate_tbac_policy
      { principal := "user:x", action := "read", resource := "index:public-data",
        context := [("query_type", .str "public")] }
      [("aud", .str "opensearch-cedarling"), ("department", .str "engineering")] 0 0 :=
  c8_decision_independent_of_audience _ _ _ 0 0 rfl rfl rfl

set_option maxRecDepth 2000000

set_option maxHeartbeats 2000000

/-- C8, counterexample.  The claim says an audience-mismatched token fails
verification with `AUDIENCE_MISMATCH` and the decision is DENY.  Against the
code, a token whose payload is `{"aud":"evil-service","department":"engineering"}`
decodes successfully — there is no audience check — and a public query under
that token is ALLOWed end to end. -/
theorem c8_audience_mismatch_can_allow :
    decode_jwt_token
        "h.eyJhdWQiOiJldmlsLXNlcnZpY2UiLCJkZXBhcnRtZW50IjoiZW5naW5lZXJpbmcifQ.s" =
      .ok (.obj [("aud", .str "evil-service"), ("department", .str "engineering")]) ∧
    (handle_opensearch_query_post
        "Bearer h.eyJhdWQiOiJldmlsLXNlcnZpY2UiLCJkZXBhcnRtZW50IjoiZW5naW5lZXJpbmcifQ.s"
        (.obj [("index", .str "public-data"),
               ("query", .obj [("match", .obj [("visibility", .str "public")])])])
        0 0).map QueryResponse.decision = .ok "ALLOW" := by
  constructor
  · rfl
  · rfl

/-- The hardcoded authorization condition of `handle_authorization` and
`authorize_data_access`, as a propositional equivalence over the result of
the `"alice" in principal` membership test. -/
theorem allow_condition_iff (b : Bool) (action : Json) :
    (b && (Json.beq action (.str "read") || Json.beq action (.str "write"))) = true ↔
    (b = true ∧ (action = .str "read" ∨ action = .str "write")) := by
  simp [Bool.and_eq_true, Bool.or_eq_true, Json.beq_str_iff]

/-- C5, counterexample.  The claim says the decision is ALLOW only when
`"alice"` occurs as a substring of the principal field and "in every other
case the decision is DENY".  A request whose `principal` field is the JSON
list `["alice"]` (not a string, so `"alice"` is not a substring of it) with
action `"read"` is nonetheless ALLOWed by both endpoints: Python evaluates
`"alice" in principal` as list membership, which is true. -/
theorem c5_list_principal_allows :
    (handle_authorization
        (.obj [("principal", .arr [.str "alice"]), ("action", .str "read")]) 0).map
      (fun r => r.decision) = .ok "ALLOW" ∧
    (authorize_data_access
        (.obj [("principal", .arr [.str "alice"]), ("action", .str "read")]) 0).map
      (fun r => r.decision) = .ok "ALLOW" := by
  exact ⟨rfl, rfl⟩

/-- C5, amended.  The decision of both authorize endpoints is computed from
the Python membership test `"alice" in principal`: whenever that test
returns a boolean `b` (string principal: substring test; list or dict
principal: element/key membership; non-iterable scalars raise instead), the
decision is ALLOW iff `b` holds and the `action` field is exactly `"read"`
or `"write"`, and DENY in every other such case; for string principals the
membership test is exactly the substring test, recovering the claim's rule,
but a list principal such as `["alice"]` can be ALLOWed without `"alice"`
being a substring of any string field. -/
theorem c5_alice_membership_decision :
    (∀ (kvs : List (String × Json)) (now : Nat) (b : Bool),
      pyInStr "alice" (dictGet kvs "principal" (.str "")) = .ok b →
      ∃ r1 r2, handle_authorization (.obj kvs) now = .ok r1 ∧
        authorize_data_access (.obj kvs) now = .ok r2 ∧
        r2.decision = r1.decision ∧
        (r1.decision = "ALLOW" ↔
          (b = true ∧ (dictGet kvs "action" (.str "") = .str "read" ∨
                       dictGet kvs "action" (.str "") = .str "write"))) ∧
        (¬(b = true ∧ (dictGet kvs "action" (.str "") = .str "read" ∨
                       dictGet kvs "action" (.str "") = .str "write")) →
          r1.decision = "DENY")) ∧
    (∀ s : String, pyInStr "alice" (.str s) = .ok (isSubstring "alice" s)) := by
  constructor
  · intro kvs now b hin
    have hiff := allow_condition_iff b (dictGet kvs "action" (.str ""))
    cases hC : (b &&
        (Json.beq (dictGet kvs "action" (.str "")) (.str "read") ||
         Json.beq (dictGet kvs "action" (.str "")) (.str "write"))) with
    | true =>
      simp [handle_authorization, authorize_data_access, hin, hC, hiff.mp hC]
      intro hr
      have h2 := (Bool.and_eq_true _ _ |>.mp hC).2
      rw [hr, Bool.false_or] at h2
      exact h2
    | false =>
      have hnot : ¬(b = true ∧
          (dictGet kvs "action" (.str "") = .str "read" ∨
           dictGet kvs "action" (.str "") = .str "write")) := by
        intro hcontra
        rw [hiff.mpr hcontra] at hC
        exact Bool.true_eq_false.mp hC
      simp [handle_authorization, authorize_data_access, hin, hC, hnot]
  · intro s
    rfl

/-- Witness for `c5_alice_membership_decision`: principal `"user:alice"`
(a string, membership = substring test) with action `"read"` is allowed by
both endpoints. -/
theorem c5_alice_membership_decision_witness :
    ∃ r1 r2, handle_authorization
        (.obj [("principal", .str "user:alice"), ("action", .str "read")]) 0 = .ok r1 ∧
      authorize_data_access
        (.obj [("principal", .str "user:alice"), ("action", .str "read")]) 0 = .ok r2 ∧
      r1.decision = "ALLOW" ∧ r2.decision = "ALLOW" := by
  obtain ⟨r1, r2, h1, h2, h21, hiff, _⟩ :=
    c5_alice_membership_decision.1
      [("principal", .str "user:alice"), ("action", .str "read")] 0 true rfl
  have hA : r1.decision = "ALLOW" := hiff.mpr ⟨rfl, Or.inl rfl⟩
  exact ⟨r1, r2, h1, h2, hA, h21.trans hA⟩

/-- C6, counterexample.  The claim says the authorization path never raises
an unhandled fault.  A request whose bearer token has payload segment `W10`
— base64url for `[]`, a JSON array — decodes successfully, and then the
uncaught `token_claims.get(...)` attribute access on a list raises instead
of producing a DENY response (only the decode call itself is inside a
`try`). -/
theorem c6_nondict_payload_raises :
    handle_opensearch_query_post "Bearer h.W10.s" (.obj []) 0 0 =
      .error "AttributeError: decoded token payload is not a dict" := by
  rfl

/-- C6, amended.  The two guarded failure modes do fail closed: a request
without a `Bearer` authorization header is answered with DENY and reason
`No token provided`, and a request whose token fails to decode is answered
with DENY and reason `Invalid token` — in both cases with a machine-readable
reason and no fault.  (Tokens that decode to a non-JSON-object payload are
not guarded; see `c6_nondict_payload_raises`.) -/
theorem c6_guarded_errors_fail_closed :
    (∀ (hdr : String) (data : Json) (e n : Nat),
      pyStartsWith hdr "Bearer " = false →
      handle_opensearch_query_post hdr data e n =
        .ok (.denied "Missing or invalid authorization header" "DENY"
              "No token provided")) ∧
    (∀ (hdr : String) (data : Json) (e n : Nat) (msg : String),
      pyStartsWith hdr "Bearer " = true →
      decode_jwt_token (hdr.drop 7) = .error msg →
      handle_opensearch_query_post hdr data e n =
        .ok (.denied "Invalid token format" "DENY" "Invalid token")) := by
  constructor
  · intro hdr data e n h
    simp [handle_opensearch_query_post, h]
  · intro hdr data e n msg h hdec
    simp [handle_opensearch_query_post, h, hdec]

/-- Witness for `c6_guarded_errors_fail_closed` on both guarded paths: an
absent header and an undecodable token each yield a DENY response. -/
theorem c6_guarded_errors_fail_closed_witness :
    handle_opensearch_query_post "" (.obj []) 0 0 =
      .ok (.denied "Missing or invalid authorization header" "DENY"
            "No token provided") ∧
    handle_opensearch_query_post "Bearer garbage" (.obj []) 0 0 =
      .ok (.denied "Invalid token format" "DENY" "Invalid token") :=
  ⟨c6_guarded_errors_fail_closed.1 "" (.obj []) 0 0 (by decide),
   c6_guarded_errors_fail_closed.2 "Bearer garbage" (.obj []) 0 0
     "Token decode error: Invalid token format" (by decide) rfl⟩

/-- C10.  Login is total and always succeeds: for every email, account id
and clock value the handler returns `success = true` with a session echoing
the inputs, the user-table attributes and freshly minted access and ID
tokens; an email outside the hardcoded table maps to the
`Unknown User`/`unknown`/`none`/no-roles fallback rather than a failure. -/
theorem c10_login_always_succeeds :
    (∀ (email account_id : String) (now : Nat),
      (handle_login_post email account_id now).success = true ∧
      (handle_login_post email account_id now).session.email = email ∧
      (handle_login_post email account_id now).session.account_id = account_id ∧
      (handle_login_post email account_id now).session.department =
        (get_user_info email).department ∧
      (handle_login_post email account_id now).session.access_level =
        (get_user_info email).access_level ∧
      (handle_login_post email account_id now).session.access_token =
        generate_access_token email account_id (get_user_info email) now ∧
      (handle_login_post email account_id now).session.id_token =
        generate_id_token email (get_user_info email) now) ∧
    (∀ email : String,
      email ≠ "alice@engineering.corp" → email ≠ "bob@sales.corp" →
      email ≠ "charlie@finance.corp" → email ≠ "guest@external.com" →
      get_user_info email = ⟨"Unknown User", "unknown", "none", []⟩) := by
  constructor
  · intro email account_id now
    exact ⟨rfl, rfl, rfl, rfl, rfl, rfl, rfl⟩
  · intro email h1 h2 h3 h4
    simp [get_user_info, h1, h2, h3, h4]

/-- Witness for `c10_login_always_succeeds`: a concrete unknown email logs
in successfully and is mapped to the fallback user record. -/
theorem c10_login_always_succeeds_witness :
    (handle_login_post "nobody@example.com" "acct_9" 1000).success = true ∧
    get_user_info "nobody@example.com" = ⟨"Unknown User", "unknown", "none", []⟩ :=
  ⟨(c10_login_always_succeeds.1 "nobody@example.com" "acct_9" 1000).1,
   c10_login_always_succeeds.2 "nobody@example.com"
     (by decide) (by decide) (by decide) (by decide)⟩

end OCP
